import Mathlib

/-!
Shallow embedding of the c2rust ast-importer translator
(`src/ast-importer/src/translator.rs`).

The translator consumes a read-only Clang AST context and produces a
Rust (target) AST.  Rust panics (`panic!`, `.unwrap()`, `.expect(..)`,
out-of-bounds indexing) are modelled as `Except.error` with the panic
message; `&mut self` state (the renamer, the accumulated items) is
threaded explicitly as a `Translation` value.  Machine `u64` ids are
modelled as `Nat` (ids are opaque keys, never arithmetic).

Collaborator modules that are not part of the repository snapshot
(`clang_ast`, `renamer`, `convert_type`, the `mk()` AST builders) are
modelled from the spec, each marked `Modelled from the spec:` in its
doc comment.  The target AST builders (`mk().xxx_expr(..)`) become
constructors of the `RExpr`/`RStmt` inductives.
-/

/-- Node ids: opaque 64-bit keys of the AST context (`u64` in the source). -/
abbrev NodeId := Nat

/-- AST entry tags, as in `clang_ast::ASTEntryTag` (the tags used by the
translator plus the declaration tags the driver may meet). -/
inductive ASTEntryTag where
  | TagFunctionDecl
  | TagVarDecl
  | TagTypedefDecl
  | TagRecordDecl
  | TagCompoundStmt
  | TagReturnStmt
  | TagIfStmt
  | TagWhileStmt
  | TagNullStmt
  | TagDeclStmt
  | TagIntegerLiteral
  | TagCharacterLiteral
  | TagFloatingLiteral
  | TagDeclRefExpr
  | TagImplicitCastExpr
  | TagUnaryOperator
  | TagBinaryOperator
  | TagCallExpr
  | TagMemberExpr
  | TagOtherStmt
  deriving DecidableEq, Repr

/-- Modelled from the spec: a heterogeneous `extras` scalar of an AST node
(operator spelling, identifier text, literal value, nested array).
A C `double` literal is carried as its decimal rendering, since the
translator only ever formats it to a string. -/
inductive LitVal where
  | vstr (s : String)
  | vu64 (n : Nat)
  | vf64 (s : String)
  | varr (xs : List LitVal)

/-- Modelled from the spec: `expect_string` scalar accessor; a
type-mismatched access yields `none` (the caller's `.expect` is fatal). -/
def expect_string : LitVal → Option String
  | .vstr s => some s
  | _ => none

/-- Modelled from the spec: `expect_str` accessor (same as `expect_string`
in the in-memory view). -/
def expect_str : LitVal → Option String
  | .vstr s => some s
  | _ => none

/-- Modelled from the spec: `expect_u64` scalar accessor. -/
def expect_u64 : LitVal → Option Nat
  | .vu64 n => some n
  | _ => none

/-- Modelled from the spec: `expect_f64` scalar accessor, returning the
decimal rendering of the floating value. -/
def expect_f64 : LitVal → Option String
  | .vf64 s => some s
  | _ => none

/-- Modelled from the spec: `expect_array` scalar accessor. -/
def expect_array : LitVal → Option (List LitVal)
  | .varr xs => some xs
  | _ => none

/-- A C AST node: tag, ordered children (each optionally null), optional
C-type id, extras scalars (`clang_ast::AstNode`). -/
structure AstNode where
  tag : ASTEntryTag
  children : List (Option NodeId)
  type_id : Option NodeId
  extras : List LitVal

/-- Modelled from the spec: `get_decl_name` returns the declared name of a
declaration node, carried as its first extras scalar. -/
def AstNode.get_decl_name (n : AstNode) : Option String :=
  match n.extras with
  | .vstr s :: _ => some s
  | _ => none

/-- Tag of a C type node, enough to answer the two predicates lowering
needs (is-pointer, is-unsigned-integral). -/
inductive TypeTag where
  | pointer
  | unsignedInt
  | signedInt
  | floating
  | typedefTag
  | functionTag
  | otherType
  deriving DecidableEq, Repr

/-- Modelled from the spec: a C type node carries enough information to
answer `is_pointer` / `is_unsigned_integral_type` and to be resolved
through typedefs to a canonical form; for a typedef the underlying type
is carried inline, and for a function type the extras carry the return
type id as the first element of an array scalar. -/
inductive TypeNode where
  | mk (tag : TypeTag) (extras : List LitVal) (underlying : Option TypeNode)

def TypeNode.tag : TypeNode → TypeTag
  | .mk tg _ _ => tg

def TypeNode.extras : TypeNode → List LitVal
  | .mk _ e _ => e

def TypeNode.underlying : TypeNode → Option TypeNode
  | .mk _ _ u => u

/-- Modelled from the spec: the *is pointer* predicate on C type nodes. -/
def TypeNode.is_pointer (t : TypeNode) : Bool :=
  t.tag = TypeTag.pointer

/-- Modelled from the spec: the *is unsigned integral* predicate on C type
nodes. -/
def TypeNode.is_unsigned_integral_type (t : TypeNode) : Bool :=
  t.tag = TypeTag.unsignedInt

/-- The AST context: the read-only indexed store of C AST nodes and C type
nodes, keyed by opaque ids, plus the list of top-level declaration ids
(`clang_ast::AstContext`). Stores are association lists. -/
structure AstContext where
  top_nodes : List NodeId
  ast_nodes : List (NodeId × AstNode)
  types : List (NodeId × TypeNode)

/-- `ast_context.get_type(id)`: lookup of a C type node, `None` when the
id is dangling. -/
def AstContext.get_type (ctx : AstContext) (type_id : NodeId) : Option TypeNode :=
  ctx.types.lookup type_id

/-- Modelled from the spec: `resolve_type` follows typedef chains to a
canonical form. -/
def AstContext.resolve_type (_ctx : AstContext) : TypeNode → TypeNode
  | .mk tg e (some u) =>
    match tg with
    | TypeTag.typedefTag => AstContext.resolve_type _ctx u
    | _ => .mk tg e (some u)
  | t => t

/-- Rust target types (`P<Ty>`); `path_ty` is the only shape the
translator builds itself, `converted` stands for the (out-of-scope)
type converter's output for a given C type id. -/
inductive RTy where
  | path_ty (segs : List String)
  | converted (type_id : NodeId)
  deriving DecidableEq, Repr

/-- Rust mutability marker (`syntax::ast::Mutability`). -/
inductive Mutability where
  | Mutable
  | Immutable
  deriving DecidableEq, Repr

/-- Rust unary operators used by the translator: `mk().unary_expr("*", _)`
(dereference) and `UnOp::Neg`. -/
inductive UnOp where
  | Deref
  | Neg
  deriving DecidableEq, Repr

/-- Rust binary operator kinds (`syntax::ast::BinOpKind`); the
`mk().spanned(..)` wrapper of the source carries no information here. -/
inductive BinOpKind where
  | Add | Sub | Mul | Div | Rem
  | BitXor | BitAnd | BitOr | Shl | Shr
  | Eq | Ne | Lt | Gt | Le | Ge
  | And | Or
  deriving DecidableEq, Repr

/-- Rust patterns built by the translator: `mk().ident_pat(..)` and
`mk().set_mutbl(..).ident_ref_pat(..)` (a `ref mut` binding). -/
inductive RPat where
  | ident_pat (m : Mutability) (name : String)
  | ident_ref_pat (m : Mutability) (name : String)
  deriving DecidableEq, Repr

mutual
/-- Rust target expressions, one constructor per `mk()` builder the
translator uses (`path_expr`/`ident_expr` are both one-segment paths). -/
inductive RExpr where
  | path_expr (segs : List String)
  | lit_int (n : Nat)
  | lit_float (s : String)
  | binary_expr (op : BinOpKind) (l r : RExpr)
  | unary_expr (op : UnOp) (arg : RExpr)
  | addr_of_expr (m : Mutability) (e : RExpr)
  | cast_expr (e : RExpr) (ty : RTy)
  | method_call_expr (recv : RExpr) (seg : String) (args : List RExpr)
  | call_expr (f : RExpr) (args : List RExpr)
  | field_expr (e : RExpr) (field : String)
  | assign_expr (lhs rhs : RExpr)
  | block_expr (b : RBlock)
  | while_expr (cond : RExpr) (body : RBlock)
  | ifte_expr (cond : RExpr) (thenB : RBlock) (elseE : Option RExpr)
  | return_expr (e : Option RExpr)

/-- A Rust local binding (`mk().local(pat, ty, init)`). -/
inductive RLocal where
  | mk (pat : RPat) (ty : Option RTy) (init : Option RExpr)

/-- Rust statements built by the translator: expression statements and
local bindings. -/
inductive RStmt where
  | expr_stmt (e : RExpr)
  | local_stmt (l : RLocal)

/-- A Rust block (`mk().block(stmts)`). -/
inductive RBlock where
  | mk (stmts : List RStmt)
end

/-- Rust items the translator emits: functions, structs, type aliases. -/
inductive Item where
  | fn_item (name : String) (args : List (RTy × RPat)) (ret : RTy) (body : RBlock)
  | struct_item (name : String) (fields : List (String × RTy))
  | type_item (name : String) (ty : RTy)

/-- `WithStmts<T>`: a target expression value together with the prefix of
target statements that must execute before it. -/
structure WithStmts (T : Type) where
  stmts : List RStmt
  val : T

/-- `WithStmts::new`: pure — empty prefix. -/
def WithStmts.new {T : Type} (val : T) : WithStmts T :=
  { stmts := [], val }

/-- `WithStmts::and_then`: monadic bind; the prefix of the second factor
is appended after the first. -/
def WithStmts.and_then {T U : Type} (x : WithStmts T) (f : T → WithStmts U) : WithStmts U :=
  let next := f x.val
  { stmts := x.stmts ++ next.stmts, val := next.val }

/-- `WithStmts::map`: transform the value without touching the prefix. -/
def WithStmts.map {T U : Type} (x : WithStmts T) (f : T → U) : WithStmts U :=
  { stmts := x.stmts, val := f x.val }

/-- `WithStmts::<P<Expr>>::to_expr`: collapse to a single expression — the
value itself when the prefix is empty, otherwise a block expression of
the prefix followed by the value. -/
def WithStmts.to_expr (x : WithStmts RExpr) : RExpr :=
  if x.stmts.isEmpty then x.val
  else RExpr.block_expr (RBlock.mk (x.stmts ++ [RStmt.expr_stmt x.val]))

/-- `stmts_block`: wrap statements in a block, except that a singleton
expression-statement that is itself a block expression is unwrapped. -/
def stmts_block (stmts : List RStmt) : RBlock :=
  match stmts with
  | [RStmt.expr_stmt (RExpr.block_expr b)] => b
  | _ => RBlock.mk stmts

/-- `with_stmts_opt`: commute `Option` out of `WithStmts`. -/
def with_stmts_opt {T : Type} : Option (WithStmts T) → WithStmts (Option T)
  | none => WithStmts.new none
  | some x => { stmts := x.stmts, val := some x.val }

/-- Modelled from the spec: the renamer — a stack of lexical scopes
mapping C identifiers to unique target identifiers, a reserved-word
set, the set of names already handed out (for uniqueness across the
translation unit) and a counter for fresh temporaries. -/
structure Renamer where
  reserved : List String
  scopes : List (List (String × String))
  used : List String
  next_fresh : Nat
  deriving DecidableEq, Repr

/-- Modelled from the spec: `Renamer::new` with a reserved-word set; the
scope stack starts non-empty. -/
def Renamer.new (reserved : List String) : Renamer :=
  { reserved, scopes := [[]], used := [], next_fresh := 0 }

/-- Modelled from the spec: deterministic suffixing — the first of
`hint, hint_1, hint_2, …` that is neither already used nor reserved. -/
def Renamer.pick_name (r : Renamer) (hint : String) : String :=
  let candidates :=
    hint :: (List.range (r.used.length + r.reserved.length + 1)).map
      (fun i => hint ++ "_" ++ toString (i + 1))
  match candidates.find? (fun c => !(r.used.contains c) && !(r.reserved.contains c)) with
  | some c => c
  | none => hint

/-- Modelled from the spec: `add_scope` pushes an empty scope. -/
def Renamer.add_scope (r : Renamer) : Renamer :=
  { r with scopes := [] :: r.scopes }

/-- Modelled from the spec: `drop_scope` pops the innermost scope. -/
def Renamer.drop_scope (r : Renamer) : Renamer :=
  { r with scopes := r.scopes.tail }

/-- Modelled from the spec: `insert` binds a C name in the innermost scope
to a target name derived from the hint; `none` when the C name is
already bound in the innermost scope. -/
def Renamer.insert (r : Renamer) (c_name : String) (hint : String) :
    Option String × Renamer :=
  match r.scopes with
  | [] => (none, r)
  | top :: rest =>
    if (top.lookup c_name).isSome then (none, r)
    else
      let n := r.pick_name hint
      (some n, { r with scopes := ((c_name, n) :: top) :: rest, used := n :: r.used })

/-- Lexical lookup over the scope stack, innermost first. -/
def Renamer.scopes_get : List (List (String × String)) → String → Option String
  | [], _ => none
  | s :: rest, n =>
    match s.lookup n with
    | some v => some v
    | none => Renamer.scopes_get rest n

/-- Modelled from the spec: `get` — lexical lookup, innermost scope
outward, first hit wins. -/
def Renamer.get (r : Renamer) (c_name : String) : Option String :=
  Renamer.scopes_get r.scopes c_name

/-- Modelled from the spec: `fresh` returns a unique fresh target
identifier for compiler-introduced temporaries. -/
def Renamer.fresh (r : Renamer) : String × Renamer :=
  let n := r.pick_name ("fresh" ++ toString r.next_fresh)
  (n, { r with next_fresh := r.next_fresh + 1, used := n :: r.used })

/-- Modelled from the spec: the type converter — a pure function from a C
type id to a target type expression; its output is opaque to the
translator, which never inspects it. -/
def TypeConverter.convert (_ctx : AstContext) (type_id : NodeId) : RTy :=
  RTy.converted type_id

/-- The translator state: accumulated items, the AST context and the
renamer (the type converter is the stateless pure function above). -/
structure Translation where
  items : List Item
  ast_context : AstContext
  renamer : Renamer

/-- `Translation::new`: empty items, the given context, a renamer with an
empty reserved set (as in the source). -/
def Translation.new (ast_context : AstContext) : Translation :=
  { items := [], ast_context, renamer := Renamer.new [] }

/-- `Option::expect(msg)`: the value, or a fatal failure with `msg`. -/
def oexpect {α : Type} (o : Option α) (msg : String) : Except String α :=
  match o with
  | some a => Except.ok a
  | none => Except.error msg

/-- `Option::unwrap()`: the value, or the standard panic message. -/
def ounwrap {α : Type} (o : Option α) : Except String α :=
  oexpect o "called Option::unwrap on a None value"

/-- Rust slice indexing `xs[i]`: the element, or an index-out-of-bounds
panic. -/
def lidx {α : Type} (l : List α) (i : Nat) : Except String α :=
  oexpect l[i]? "index out of bounds"

/-- `bool_to_int`: convert a boolean expression to a `libc::c_int` by an
explicit cast. -/
def bool_to_int (val : RExpr) : RExpr :=
  RExpr.cast_expr val (RTy.path_ty ["libc", "c_int"])

/-- `int_to_bool`: compare against zero. -/
def int_to_bool (val : RExpr) : RExpr :=
  RExpr.binary_expr BinOpKind.Ne (RExpr.lit_int 0) val

/-- `Translation::convert_type`: delegate to the type converter. -/
def Translation.convert_type (t : Translation) (type_id : NodeId) : RTy :=
  TypeConverter.convert t.ast_context type_id

/-- `convert_addition`: pointer offset when either resolved side is a
pointer, wrapping add at unsigned integral lhs type, native add
otherwise. -/
def Translation.convert_addition (t : Translation) (lhs_type rhs_type : TypeNode)
    (lhs rhs : RExpr) : RExpr :=
  let lhs_type := t.ast_context.resolve_type lhs_type
  let rhs_type := t.ast_context.resolve_type rhs_type
  if lhs_type.is_pointer then
    RExpr.method_call_expr lhs "offset" [rhs]
  else if rhs_type.is_pointer then
    RExpr.method_call_expr rhs "offset" [lhs]
  else if lhs_type.is_unsigned_integral_type then
    RExpr.method_call_expr lhs "wrapping_add" [rhs]
  else
    RExpr.binary_expr BinOpKind.Add lhs rhs

/-- `convert_subtraction`: pointer difference when the resolved rhs is a
pointer, pointer offset of the negated rhs when only the lhs is,
wrapping sub at unsigned integral lhs type, native sub otherwise. -/
def Translation.convert_subtraction (t : Translation) (lhs_type rhs_type : TypeNode)
    (lhs rhs : RExpr) : RExpr :=
  let lhs_type := t.ast_context.resolve_type lhs_type
  let rhs_type := t.ast_context.resolve_type rhs_type
  if rhs_type.is_pointer then
    RExpr.method_call_expr rhs "offset_to" [lhs]
  else if lhs_type.is_pointer then
    let neg_rhs := RExpr.unary_expr UnOp.Neg rhs
    RExpr.method_call_expr lhs "offset" [neg_rhs]
  else if lhs_type.is_unsigned_integral_type then
    RExpr.method_call_expr lhs "wrapping_sub" [rhs]
  else
    RExpr.binary_expr BinOpKind.Sub lhs rhs

/-- `convert_assignment`: bind a fresh `p`, form `*p`, emit `*p = rhs`,
yield `*p`.  NOTE: as in the source, the computed `compute_lhs`
binding statement is built but never pushed into the emitted
statements. -/
def Translation.convert_assignment (t : Translation) (lhs rhs : RExpr) :
    Except String (WithStmts RExpr × Translation) :=
  let fr := t.renamer.fresh
  let ptr_name := fr.1
  let t := { t with renamer := fr.2 }
  -- let ref mut p = lhs;
  let compute_lhs :=
    RStmt.local_stmt
      (RLocal.mk (RPat.ident_ref_pat Mutability.Mutable ptr_name) none (some lhs))
  -- *p
  let deref_lhs := RExpr.unary_expr UnOp.Deref (RExpr.path_expr [ptr_name])
  -- *p = rhs
  let assign_stmt := RStmt.expr_stmt (RExpr.assign_expr deref_lhs rhs)
  let _unused := compute_lhs
  Except.ok ({ stmts := [assign_stmt], val := deref_lhs }, t)

mutual
/-- `convert_binary_operator`: the binary operator table, keyed by the C
operator spelling; the default arm is the unknown-operator fatal
failure. -/
def Translation.convert_binary_operator (t : Translation) (name : String) (ty : RTy)
    (ctype lhs_type rhs_type : TypeNode) (lhs rhs : RExpr) :
    Except String (WithStmts RExpr × Translation) :=
  match name with
  | "+" => Except.ok (WithStmts.new (t.convert_addition lhs_type rhs_type lhs rhs), t)
  | "-" => Except.ok (WithStmts.new (t.convert_subtraction lhs_type rhs_type lhs rhs), t)
  | "*" =>
    if ctype.is_unsigned_integral_type then
      Except.ok (WithStmts.new (RExpr.method_call_expr lhs "wrapping_mul" [rhs]), t)
    else
      Except.ok (WithStmts.new (RExpr.binary_expr BinOpKind.Mul lhs rhs), t)
  | "/" =>
    if ctype.is_unsigned_integral_type then
      Except.ok (WithStmts.new (RExpr.method_call_expr lhs "wrapping_div" [rhs]), t)
    else
      Except.ok (WithStmts.new (RExpr.binary_expr BinOpKind.Div lhs rhs), t)
  | "%" =>
    if ctype.is_unsigned_integral_type then
      Except.ok (WithStmts.new (RExpr.method_call_expr lhs "wrapping_rem" [rhs]), t)
    else
      Except.ok (WithStmts.new (RExpr.binary_expr BinOpKind.Rem lhs rhs), t)
  | "^" => Except.ok (WithStmts.new (RExpr.binary_expr BinOpKind.BitXor lhs rhs), t)
  | ">>" => Except.ok (WithStmts.new (RExpr.binary_expr BinOpKind.Shr lhs rhs), t)
  | "==" =>
    Except.ok ((WithStmts.new (RExpr.binary_expr BinOpKind.Eq lhs rhs)).map bool_to_int, t)
  | "!=" =>
    Except.ok ((WithStmts.new (RExpr.binary_expr BinOpKind.Ne lhs rhs)).map bool_to_int, t)
  | "<" =>
    Except.ok ((WithStmts.new (RExpr.binary_expr BinOpKind.Lt lhs rhs)).map bool_to_int, t)
  | ">" =>
    Except.ok ((WithStmts.new (RExpr.binary_expr BinOpKind.Gt lhs rhs)).map bool_to_int, t)
  | ">=" =>
    Except.ok ((WithStmts.new (RExpr.binary_expr BinOpKind.Ge lhs rhs)).map bool_to_int, t)
  | "<=" =>
    Except.ok ((WithStmts.new (RExpr.binary_expr BinOpKind.Le lhs rhs)).map bool_to_int, t)
  | "&&" => Except.ok (WithStmts.new (RExpr.binary_expr BinOpKind.And lhs rhs), t)
  | "||" => Except.ok (WithStmts.new (RExpr.binary_expr BinOpKind.Or lhs rhs), t)
  | "&" => Except.ok (WithStmts.new (RExpr.binary_expr BinOpKind.BitAnd lhs rhs), t)
  | "|" => Except.ok (WithStmts.new (RExpr.binary_expr BinOpKind.BitOr lhs rhs), t)
  | "+=" => t.convert_binary_assignment "+" ty ctype lhs_type rhs_type lhs rhs
  | "-=" => t.convert_binary_assignment "-" ty ctype lhs_type rhs_type lhs rhs
  | "*=" => t.convert_binary_assignment "*" ty ctype lhs_type rhs_type lhs rhs
  | "/=" => t.convert_binary_assignment "/" ty ctype lhs_type rhs_type lhs rhs
  | "%=" => t.convert_binary_assignment "%" ty ctype lhs_type rhs_type lhs rhs
  | "^=" => t.convert_binary_assignment "^" ty ctype lhs_type rhs_type lhs rhs
  | "<<=" => t.convert_binary_assignment "<<" ty ctype lhs_type rhs_type lhs rhs
  | ">>=" => t.convert_binary_assignment ">>" ty ctype lhs_type rhs_type lhs rhs
  | "|=" => t.convert_binary_assignment "|" ty ctype lhs_type rhs_type lhs rhs
  | "&=" => t.convert_binary_assignment "&" ty ctype lhs_type rhs_type lhs rhs
  | "=" => t.convert_assignment lhs rhs
  | op => Except.error ("Unknown binary operator " ++ op)
termination_by (name.length, 0)
decreasing_by
all_goals first
  | decide
  | (apply Prod.Lex.right; decide)

/-- `convert_binary_assignment`: bind a fresh `p` to the lhs, lower
`*p op rhs` through the operator table, emit `*p = <that value>`,
yield `*p`. -/
def Translation.convert_binary_assignment (t : Translation) (name : String) (ty : RTy)
    (ctype lhs_type rhs_type : TypeNode) (lhs rhs : RExpr) :
    Except String (WithStmts RExpr × Translation) :=
  let fr := t.renamer.fresh
  let ptr_name := fr.1
  let t1 := { t with renamer := fr.2 }
  -- let ref mut p = lhs;
  let compute_lhs :=
    RStmt.local_stmt
      (RLocal.mk (RPat.ident_ref_pat Mutability.Mutable ptr_name) none (some lhs))
  -- *p
  let deref_lhs := RExpr.unary_expr UnOp.Deref (RExpr.path_expr [ptr_name])
  do
    -- *p + rhs
    let r ← t1.convert_binary_operator name ty ctype lhs_type rhs_type deref_lhs rhs
    let val := r.1
    let t2 := r.2
    -- *p = *p + rhs
    let assign_stmt := RExpr.assign_expr deref_lhs val.val
    Except.ok
      ({ stmts := compute_lhs :: (val.stmts ++ [RStmt.expr_stmt assign_stmt]),
         val := deref_lhs }, t2)
termination_by (name.length, 1)
decreasing_by
all_goals first
  | decide
  | (apply Prod.Lex.right; decide)
end

/-! Helper lemmas and concrete fixtures used by the claims below. -/

/-- An unsigned integral type node is never a pointer (the two predicates
examine the same single tag). -/
theorem TypeNode.unsigned_not_pointer (tn : TypeNode)
    (h : tn.is_unsigned_integral_type = true) : tn.is_pointer = false := by
  unfold TypeNode.is_unsigned_integral_type at h
  unfold TypeNode.is_pointer
  simp only [decide_eq_true_eq] at h
  simp [h]

/-- An empty AST context, for concrete evaluations. -/
def ctx0 : AstContext :=
  { top_nodes := [], ast_nodes := [], types := [] }

/-- A plain signed integral C type node. -/
def signedTy : TypeNode := TypeNode.mk TypeTag.signedInt [] none

/-- A plain unsigned integral C type node. -/
def unsignedTy : TypeNode := TypeNode.mk TypeTag.unsignedInt [] none

/-- A pointer C type node. -/
def ptrTy : TypeNode := TypeNode.mk TypeTag.pointer [] none

/-- C1: lowering the simple assignment `lhs = rhs` yields the value `*p`
for a fresh temporary `p`, but its statement prefix is only the single
store `*p = rhs` — the `let ref mut p = lhs` binding is constructed and
then dropped, so the prefix does NOT first bind `p` to the lhs lvalue
as the claim (and the spec's assignment protocol, step 1) requires. -/
theorem convert_assignment_omits_lhs_binding (t : Translation) (lhs rhs : RExpr) :
    t.convert_assignment lhs rhs =
      Except.ok
        ({ stmts :=
             [RStmt.expr_stmt
                (RExpr.assign_expr
                  (RExpr.unary_expr UnOp.Deref (RExpr.path_expr [t.renamer.fresh.1])) rhs)],
           val := RExpr.unary_expr UnOp.Deref (RExpr.path_expr [t.renamer.fresh.1]) },
         { t with renamer := t.renamer.fresh.2 }) := rfl

/-- C2: lowering a compound assignment `lhs op= rhs` emits, in order, the
binding of a fresh temporary `p` as a mutable reference to the lhs, the
prefix of recursively lowering `*p op rhs` through the same binary
operator table, and the store `*p = <that value>`; the yielded value is
`*p`, so the lhs is evaluated exactly once. -/
theorem convert_binary_assignment_protocol (t : Translation) (name : String) (ty : RTy)
    (ctype lhs_type rhs_type : TypeNode) (lhs rhs : RExpr)
    (w : WithStmts RExpr) (t2 : Translation)
    (h : ({ t with renamer := t.renamer.fresh.2 } : Translation).convert_binary_operator
           name ty ctype lhs_type rhs_type
           (RExpr.unary_expr UnOp.Deref (RExpr.path_expr [t.renamer.fresh.1])) rhs
         = Except.ok (w, t2)) :
    t.convert_binary_assignment name ty ctype lhs_type rhs_type lhs rhs =
      Except.ok
        ({ stmts :=
             RStmt.local_stmt
                 (RLocal.mk (RPat.ident_ref_pat Mutability.Mutable t.renamer.fresh.1)
                   none (some lhs))
               :: (w.stmts ++
                   [RStmt.expr_stmt
                      (RExpr.assign_expr
                        (RExpr.unary_expr UnOp.Deref (RExpr.path_expr [t.renamer.fresh.1]))
                        w.val)]),
           val := RExpr.unary_expr UnOp.Deref (RExpr.path_expr [t.renamer.fresh.1]) },
         t2) := by
  simp only [Translation.convert_binary_assignment, h]
  rfl

/-- C2 witness: `x += 1` at signed int type — the prefix is the binding of
the fresh temporary, then the store of `*p + 1`, and the value is `*p`. -/
theorem convert_binary_assignment_protocol_witness :
    (Translation.new ctx0).convert_binary_assignment "+" (RTy.converted 0)
        signedTy signedTy signedTy (RExpr.path_expr ["x"]) (RExpr.lit_int 1) =
      Except.ok
        ({ stmts :=
             RStmt.local_stmt
                 (RLocal.mk (RPat.ident_ref_pat Mutability.Mutable "fresh0")
                   none (some (RExpr.path_expr ["x"])))
               :: ([] ++
                   [RStmt.expr_stmt
                      (RExpr.assign_expr
                        (RExpr.unary_expr UnOp.Deref (RExpr.path_expr ["fresh0"]))
                        (RExpr.binary_expr BinOpKind.Add
                          (RExpr.unary_expr UnOp.Deref (RExpr.path_expr ["fresh0"]))
                          (RExpr.lit_int 1)))]),
           val := RExpr.unary_expr UnOp.Deref (RExpr.path_expr ["fresh0"]) },
         { (Translation.new ctx0) with renamer := (Translation.new ctx0).renamer.fresh.2 }) :=
  convert_binary_assignment_protocol (Translation.new ctx0) "+" (RTy.converted 0)
    signedTy signedTy signedTy (RExpr.path_expr ["x"]) (RExpr.lit_int 1)
    { stmts := [],
      val := RExpr.binary_expr BinOpKind.Add
        (RExpr.unary_expr UnOp.Deref (RExpr.path_expr ["fresh0"])) (RExpr.lit_int 1) }
    { (Translation.new ctx0) with renamer := (Translation.new ctx0).renamer.fresh.2 }
    (by simp [Translation.convert_binary_operator, Translation.convert_addition,
          AstContext.resolve_type, signedTy, TypeNode.is_pointer,
          TypeNode.is_unsigned_integral_type, TypeNode.tag, WithStmts.new]
        rfl)

/-- C3: each of `+ - * / %` at an unsigned integral C type (the node's
type and both resolved operand types unsigned integral, hence not
pointers) lowers to the corresponding wrapping method call, never the
native arithmetic operator. -/
theorem unsigned_arithmetic_wraps (t : Translation) (ty : RTy)
    (ctype lhs_type rhs_type : TypeNode) (lhs rhs : RExpr)
    (hc : ctype.is_unsigned_integral_type = true)
    (hl : (t.ast_context.resolve_type lhs_type).is_unsigned_integral_type = true)
    (hr : (t.ast_context.resolve_type rhs_type).is_unsigned_integral_type = true) :
    t.convert_binary_operator "+" ty ctype lhs_type rhs_type lhs rhs =
        Except.ok ({ stmts := [], val := RExpr.method_call_expr lhs "wrapping_add" [rhs] }, t)
    ∧ t.convert_binary_operator "-" ty ctype lhs_type rhs_type lhs rhs =
        Except.ok ({ stmts := [], val := RExpr.method_call_expr lhs "wrapping_sub" [rhs] }, t)
    ∧ t.convert_binary_operator "*" ty ctype lhs_type rhs_type lhs rhs =
        Except.ok ({ stmts := [], val := RExpr.method_call_expr lhs "wrapping_mul" [rhs] }, t)
    ∧ t.convert_binary_operator "/" ty ctype lhs_type rhs_type lhs rhs =
        Except.ok ({ stmts := [], val := RExpr.method_call_expr lhs "wrapping_div" [rhs] }, t)
    ∧ t.convert_binary_operator "%" ty ctype lhs_type rhs_type lhs rhs =
        Except.ok ({ stmts := [], val := RExpr.method_call_expr lhs "wrapping_rem" [rhs] }, t) := by
  have hlp := TypeNode.unsigned_not_pointer _ hl
  have hrp := TypeNode.unsigned_not_pointer _ hr
  refine ⟨?_, ?_, ?_, ?_, ?_⟩
  · simp [Translation.convert_binary_operator, Translation.convert_addition,
      hl, hlp, hrp, WithStmts.new]
  · simp [Translation.convert_binary_operator, Translation.convert_subtraction,
      hl, hlp, hrp, WithStmts.new]
  · simp [Translation.convert_binary_operator, hc, WithStmts.new]
  · simp [Translation.convert_binary_operator, hc, WithStmts.new]
  · simp [Translation.convert_binary_operator, hc, WithStmts.new]

/-- C3 witness: at the plain unsigned type, all five operators produce
wrapping method calls. -/
theorem unsigned_arithmetic_wraps_witness :
    (Translation.new ctx0).convert_binary_operator "+" (RTy.converted 0)
        unsignedTy unsignedTy unsignedTy (RExpr.path_expr ["a"]) (RExpr.path_expr ["b"]) =
        Except.ok
        ({ stmts := [],
           val := RExpr.method_call_expr (RExpr.path_expr ["a"]) "wrapping_add"
            [RExpr.path_expr ["b"]] }, Translation.new ctx0)
    ∧ (Translation.new ctx0).convert_binary_operator "-" (RTy.converted 0)
        unsignedTy unsignedTy unsignedTy (RExpr.path_expr ["a"]) (RExpr.path_expr ["b"]) =
        Except.ok
        ({ stmts := [],
           val := RExpr.method_call_expr (RExpr.path_expr ["a"]) "wrapping_sub"
            [RExpr.path_expr ["b"]] }, Translation.new ctx0)
    ∧ (Translation.new ctx0).convert_binary_operator "*" (RTy.converted 0)
        unsignedTy unsignedTy unsignedTy (RExpr.path_expr ["a"]) (RExpr.path_expr ["b"]) =
        Except.ok
        ({ stmts := [],
           val := RExpr.method_call_expr (RExpr.path_expr ["a"]) "wrapping_mul"
            [RExpr.path_expr ["b"]] }, Translation.new ctx0)
    ∧ (Translation.new ctx0).convert_binary_operator "/" (RTy.converted 0)
        unsignedTy unsignedTy unsignedTy (RExpr.path_expr ["a"]) (RExpr.path_expr ["b"]) =
        Except.ok
        ({ stmts := [],
           val := RExpr.method_call_expr (RExpr.path_expr ["a"]) "wrapping_div"
            [RExpr.path_expr ["b"]] }, Translation.new ctx0)
    ∧ (Translation.new ctx0).convert_binary_operator "%" (RTy.converted 0)
        unsignedTy unsignedTy unsignedTy (RExpr.path_expr ["a"]) (RExpr.path_expr ["b"]) =
        Except.ok
        ({ stmts := [],
           val := RExpr.method_call_expr (RExpr.path_expr ["a"]) "wrapping_rem"
            [RExpr.path_expr ["b"]] }, Translation.new ctx0) :=
  unsigned_arithmetic_wraps (Translation.new ctx0) (RTy.converted 0)
    unsignedTy unsignedTy unsignedTy (RExpr.path_expr ["a"]) (RExpr.path_expr ["b"])
    rfl rfl rfl

/-- C4: pointer arithmetic — with typedefs resolved, `p + n` and `n + p`
lower to the pointer-offset primitive `p.offset(n)` on the pointer
operand; `p - n` with only the lhs a pointer lowers to
`p.offset(-n)`; and `p - q` with the rhs a pointer lowers to the
pointer-difference primitive `q.offset_to(p)`. -/
theorem pointer_arithmetic_offsets (t : Translation) (ty : RTy)
    (ctype lhs_type rhs_type : TypeNode) (lhs rhs : RExpr) :
    ((t.ast_context.resolve_type lhs_type).is_pointer = true →
      t.convert_binary_operator "+" ty ctype lhs_type rhs_type lhs rhs =
        Except.ok
          ({ stmts := [], val := RExpr.method_call_expr lhs "offset" [rhs] }, t))
    ∧ ((t.ast_context.resolve_type lhs_type).is_pointer = false →
       (t.ast_context.resolve_type rhs_type).is_pointer = true →
      t.convert_binary_operator "+" ty ctype lhs_type rhs_type lhs rhs =
        Except.ok
          ({ stmts := [], val := RExpr.method_call_expr rhs "offset" [lhs] }, t))
    ∧ ((t.ast_context.resolve_type rhs_type).is_pointer = false →
       (t.ast_context.resolve_type lhs_type).is_pointer = true →
      t.convert_binary_operator "-" ty ctype lhs_type rhs_type lhs rhs =
        Except.ok
          ({ stmts := [],
             val := RExpr.method_call_expr lhs "offset" [RExpr.unary_expr UnOp.Neg rhs] },
           t))
    ∧ ((t.ast_context.resolve_type rhs_type).is_pointer = true →
      t.convert_binary_operator "-" ty ctype lhs_type rhs_type lhs rhs =
        Except.ok
          ({ stmts := [], val := RExpr.method_call_expr rhs "offset_to" [lhs] }, t)) := by
  refine ⟨?_, ?_, ?_, ?_⟩
  · intro hl
    simp [Translation.convert_binary_operator, Translation.convert_addition, hl,
      WithStmts.new]
  · intro hl hr
    simp [Translation.convert_binary_operator, Translation.convert_addition, hl, hr,
      WithStmts.new]
  · intro hr hl
    simp [Translation.convert_binary_operator, Translation.convert_subtraction, hl, hr,
      WithStmts.new]
  · intro hr
    simp [Translation.convert_binary_operator, Translation.convert_subtraction, hr,
      WithStmts.new]

/-- C4 witness: with lhs a pointer and rhs a signed integer, `p + n` and
`p - n` lower through `offset`, and with the rhs a pointer, `n + p`
lowers through `offset` on the rhs and `p - q` through `offset_to`. -/
theorem pointer_arithmetic_offsets_witness :
    ((Translation.new ctx0).convert_binary_operator "+" (RTy.converted 0)
        ptrTy ptrTy signedTy (RExpr.path_expr ["p"]) (RExpr.path_expr ["n"]) =
      Except.ok
        ({ stmts := [],
           val := RExpr.method_call_expr (RExpr.path_expr ["p"]) "offset"
             [RExpr.path_expr ["n"]] }, Translation.new ctx0))
    ∧ ((Translation.new ctx0).convert_binary_operator "+" (RTy.converted 0)
        ptrTy signedTy ptrTy (RExpr.path_expr ["n"]) (RExpr.path_expr ["p"]) =
      Except.ok
        ({ stmts := [],
           val := RExpr.method_call_expr (RExpr.path_expr ["p"]) "offset"
             [RExpr.path_expr ["n"]] }, Translation.new ctx0))
    ∧ ((Translation.new ctx0).convert_binary_operator "-" (RTy.converted 0)
        ptrTy ptrTy signedTy (RExpr.path_expr ["p"]) (RExpr.path_expr ["n"]) =
      Except.ok
        ({ stmts := [],
           val := RExpr.method_call_expr (RExpr.path_expr ["p"]) "offset"
             [RExpr.unary_expr UnOp.Neg (RExpr.path_expr ["n"])] }, Translation.new ctx0))
    ∧ ((Translation.new ctx0).convert_binary_operator "-" (RTy.converted 0)
        signedTy ptrTy ptrTy (RExpr.path_expr ["p"]) (RExpr.path_expr ["q"]) =
      Except.ok
        ({ stmts := [],
           val := RExpr.method_call_expr (RExpr.path_expr ["q"]) "offset_to"
             [RExpr.path_expr ["p"]] }, Translation.new ctx0)) :=
  ⟨(pointer_arithmetic_offsets (Translation.new ctx0) (RTy.converted 0)
      ptrTy ptrTy signedTy (RExpr.path_expr ["p"]) (RExpr.path_expr ["n"])).1 rfl,
   (pointer_arithmetic_offsets (Translation.new ctx0) (RTy.converted 0)
      ptrTy signedTy ptrTy (RExpr.path_expr ["n"]) (RExpr.path_expr ["p"])).2.1 rfl rfl,
   (pointer_arithmetic_offsets (Translation.new ctx0) (RTy.converted 0)
      ptrTy ptrTy signedTy (RExpr.path_expr ["p"]) (RExpr.path_expr ["n"])).2.2.1 rfl rfl,
   (pointer_arithmetic_offsets (Translation.new ctx0) (RTy.converted 0)
      signedTy ptrTy ptrTy (RExpr.path_expr ["p"]) (RExpr.path_expr ["q"])).2.2.2 rfl⟩

/-- C6: each relational operator lowers to the native comparison wrapped
in an explicit cast to `libc::c_int`, never a raw boolean expression. -/
theorem relational_operators_cast_to_c_int (t : Translation) (ty : RTy)
    (ctype lhs_type rhs_type : TypeNode) (lhs rhs : RExpr) :
    t.convert_binary_operator "==" ty ctype lhs_type rhs_type lhs rhs =
      Except.ok
        ({ stmts := [],
           val := RExpr.cast_expr (RExpr.binary_expr BinOpKind.Eq lhs rhs)
             (RTy.path_ty ["libc", "c_int"]) }, t)
    ∧ t.convert_binary_operator "!=" ty ctype lhs_type rhs_type lhs rhs =
      Except.ok
        ({ stmts := [],
           val := RExpr.cast_expr (RExpr.binary_expr BinOpKind.Ne lhs rhs)
             (RTy.path_ty ["libc", "c_int"]) }, t)
    ∧ t.convert_binary_operator "<" ty ctype lhs_type rhs_type lhs rhs =
      Except.ok
        ({ stmts := [],
           val := RExpr.cast_expr (RExpr.binary_expr BinOpKind.Lt lhs rhs)
             (RTy.path_ty ["libc", "c_int"]) }, t)
    ∧ t.convert_binary_operator ">" ty ctype lhs_type rhs_type lhs rhs =
      Except.ok
        ({ stmts := [],
           val := RExpr.cast_expr (RExpr.binary_expr BinOpKind.Gt lhs rhs)
             (RTy.path_ty ["libc", "c_int"]) }, t)
    ∧ t.convert_binary_operator "<=" ty ctype lhs_type rhs_type lhs rhs =
      Except.ok
        ({ stmts := [],
           val := RExpr.cast_expr (RExpr.binary_expr BinOpKind.Le lhs rhs)
             (RTy.path_ty ["libc", "c_int"]) }, t)
    ∧ t.convert_binary_operator ">=" ty ctype lhs_type rhs_type lhs rhs =
      Except.ok
        ({ stmts := [],
           val := RExpr.cast_expr (RExpr.binary_expr BinOpKind.Ge lhs rhs)
             (RTy.path_ty ["libc", "c_int"]) }, t) := by
  refine ⟨?_, ?_, ?_, ?_, ?_, ?_⟩ <;>
    simp [Translation.convert_binary_operator, WithStmts.new, WithStmts.map, bool_to_int]

/-- C8: `WithStmts` bind (`and_then`) is associative — both the
concatenated statement prefix and the final value coincide. -/
theorem withStmts_and_then_assoc {T U V : Type} (a : WithStmts T)
    (f : T → WithStmts U) (g : U → WithStmts V) :
    (a.and_then f).and_then g = a.and_then (fun x => (f x).and_then g) := by
  simp [WithStmts.and_then, List.append_assoc]

/-- C9: lowering a `<<=` compound assignment always fails fatally: the
compound path re-enters the operator table with the spelling `<<`,
which has no case (only `>>` is present), so it falls through to the
unknown-operator fatal failure — for every state, type and operand. -/
theorem shl_assign_always_fails (t : Translation) (ty : RTy)
    (ctype lhs_type rhs_type : TypeNode) (lhs rhs : RExpr) :
    t.convert_binary_operator "<<=" ty ctype lhs_type rhs_type lhs rhs =
      Except.error "Unknown binary operator <<" := by
  simp [Translation.convert_binary_operator, Translation.convert_binary_assignment]
  rfl

/-- `convert_unary_operator`: only `&` is implemented — address-of-mutable
of the argument, cast to the declared pointer type. -/
def Translation.convert_unary_operator (t : Translation) (name : String)
    (_ctype : TypeNode) (ty : RTy) (arg : RExpr) :
    Except String (WithStmts RExpr × Translation) :=
  match name with
  | "&" =>
    let addr_of_arg := RExpr.addr_of_expr Mutability.Mutable arg
    let ptr := RExpr.cast_expr addr_of_arg ty
    Except.ok (WithStmts.new ptr, t)
  | n => Except.error ("unary operator " ++ n ++ " not implemented")

mutual
/-- `convert_stmt`: dispatch on the tag of the statement node; the lookup
of a dangling id is `.unwrap()` (fatal).  The `fuel` parameter is an
embedding artifact bounding recursion depth through node ids. -/
def Translation.convert_stmt (t : Translation) (fuel : Nat) (stmt_id : NodeId) :
    Except String (List RStmt × Translation) :=
  match fuel with
  | 0 => Except.error "out of fuel"
  | fuel + 1 => do
    let node ← ounwrap (t.ast_context.ast_nodes.lookup stmt_id)
    match node.tag with
    | ASTEntryTag.TagDeclStmt =>
      Translation.convert_decl_stmt_list t fuel node.children
    | ASTEntryTag.TagReturnStmt => do
      let c0 ← lidx node.children 0
      Translation.convert_return_stmt t fuel c0
    | ASTEntryTag.TagIfStmt => do
      let c0 ← lidx node.children 0
      let cond_id ← ounwrap c0
      let c1 ← lidx node.children 1
      let then_id ← ounwrap c1
      let c2 ← lidx node.children 2
      Translation.convert_if_stmt t fuel cond_id then_id c2
    | ASTEntryTag.TagWhileStmt => do
      let c0 ← lidx node.children 0
      let cond_id ← ounwrap c0
      let c1 ← lidx node.children 1
      let body_id ← ounwrap c1
      Translation.convert_while_stmt t fuel cond_id body_id
    | ASTEntryTag.TagNullStmt => Except.ok ([], t)
    | ASTEntryTag.TagCompoundStmt => do
      let t1 := { t with renamer := t.renamer.add_scope }
      let r ← Translation.convert_stmt_flat t1 fuel (node.children.filterMap id)
      let t3 := { r.2 with renamer := (r.2).renamer.drop_scope }
      Except.ok ([RStmt.expr_stmt (RExpr.block_expr (stmts_block r.1))], t3)
    | _ => do
      let r ← Translation.convert_expr t fuel stmt_id
      Except.ok (r.1.stmts ++ [RStmt.expr_stmt r.1.val], r.2)
termination_by (fuel, 0)
decreasing_by
all_goals first
  | (apply Prod.Lex.left; (try simp only [List.length_cons]); omega)
  | (apply Prod.Lex.right; (try simp only [List.length_cons]); omega)

/-- `convert_while_stmt`: lower the condition, collapse it to a single
expression, lower the body to a block, and emit one
`while cond { body }` statement. -/
def Translation.convert_while_stmt (t : Translation) (fuel : Nat)
    (cond_id body_id : NodeId) : Except String (List RStmt × Translation) := do
  let rc ← Translation.convert_expr t fuel cond_id
  let cond := rc.1
  let rb ← Translation.convert_stmt rc.2 fuel body_id
  let body := rb.1
  let rust_cond := cond.to_expr
  let rust_body := stmts_block body
  Except.ok ([RStmt.expr_stmt (RExpr.while_expr rust_cond rust_body)], rb.2)
termination_by (fuel, 1)
decreasing_by
all_goals first
  | (apply Prod.Lex.left; (try simp only [List.length_cons]); omega)
  | (apply Prod.Lex.right; (try simp only [List.length_cons]); omega)

/-- `convert_if_stmt`: the condition's prefix executes once, before the
single `if` expression-statement. -/
def Translation.convert_if_stmt (t : Translation) (fuel : Nat)
    (cond_id then_id : NodeId) (else_id : Option NodeId) :
    Except String (List RStmt × Translation) := do
  let rc ← Translation.convert_expr t fuel cond_id
  let cond := rc.1
  let rt ← Translation.convert_stmt rc.2 fuel then_id
  let then_stmts := stmts_block rt.1
  match else_id with
  | none =>
    Except.ok (cond.stmts ++
      [RStmt.expr_stmt (RExpr.ifte_expr cond.val then_stmts none)], rt.2)
  | some x => do
    let re ← Translation.convert_stmt rt.2 fuel x
    let else_stmts := RExpr.block_expr (stmts_block re.1)
    Except.ok (cond.stmts ++
      [RStmt.expr_stmt (RExpr.ifte_expr cond.val then_stmts (some else_stmts))], re.2)
termination_by (fuel, 1)
decreasing_by
all_goals first
  | (apply Prod.Lex.left; (try simp only [List.length_cons]); omega)
  | (apply Prod.Lex.right; (try simp only [List.length_cons]); omega)

/-- `convert_return_stmt`: prefix of the optional result, then a single
`return` statement. -/
def Translation.convert_return_stmt (t : Translation) (fuel : Nat)
    (result_id : Option NodeId) : Except String (List RStmt × Translation) := do
  match result_id with
  | none =>
    let ws := with_stmts_opt (none : Option (WithStmts RExpr))
    Except.ok (ws.stmts ++ [RStmt.expr_stmt (RExpr.return_expr ws.val)], t)
  | some i => do
    let r ← Translation.convert_expr t fuel i
    let ws := with_stmts_opt (some r.1)
    Except.ok (ws.stmts ++ [RStmt.expr_stmt (RExpr.return_expr ws.val)], r.2)
termination_by (fuel, 1)
decreasing_by
all_goals first
  | (apply Prod.Lex.left; (try simp only [List.length_cons]); omega)
  | (apply Prod.Lex.right; (try simp only [List.length_cons]); omega)

/-- `convert_decl_stmt`: only `VarDecl` is implemented — insert the name,
lower the optional initializer, emit a mutable local binding after the
initializer's prefix. -/
def Translation.convert_decl_stmt (t : Translation) (fuel : Nat) (decl_id : NodeId) :
    Except String (List RStmt × Translation) := do
  let node ← ounwrap (t.ast_context.ast_nodes.lookup decl_id)
  match node.tag with
  | ASTEntryTag.TagVarDecl => do
    let e0 ← lidx node.extras 0
    let var_name ← ounwrap (expect_string e0)
    let ins := t.renamer.insert var_name var_name
    let rust_name ← ounwrap ins.1
    let t1 := { t with renamer := ins.2 }
    let pat := RPat.ident_pat Mutability.Mutable rust_name
    let c0 ← lidx node.children 0
    match c0 with
    | none => do
      let init := with_stmts_opt (none : Option (WithStmts RExpr))
      let tid ← ounwrap node.type_id
      let ty := Translation.convert_type t1 tid
      let loc := RLocal.mk pat (some ty) init.val
      Except.ok (init.stmts ++ [RStmt.local_stmt loc], t1)
    | some x => do
      let r ← Translation.convert_expr t1 fuel x
      let init := with_stmts_opt (some r.1)
      let tid ← ounwrap node.type_id
      let ty := Translation.convert_type r.2 tid
      let loc := RLocal.mk pat (some ty) init.val
      Except.ok (init.stmts ++ [RStmt.local_stmt loc], r.2)
  | _ => Except.error "Declaration not implemented"
termination_by (fuel, 1)
decreasing_by
all_goals first
  | (apply Prod.Lex.left; (try simp only [List.length_cons]); omega)
  | (apply Prod.Lex.right; (try simp only [List.length_cons]); omega)

/-- The `DeclStmt` arm of `convert_stmt`: convert each child declaration
(`.unwrap()` on a null child), concatenating the statement lists. -/
def Translation.convert_decl_stmt_list (t : Translation) (fuel : Nat)
    (ids : List (Option NodeId)) : Except String (List RStmt × Translation) :=
  match ids with
  | [] => Except.ok ([], t)
  | c :: rest => do
    let decl_id ← ounwrap c
    let r ← Translation.convert_decl_stmt t fuel decl_id
    let r2 ← Translation.convert_decl_stmt_list r.2 fuel rest
    Except.ok (r.1 ++ r2.1, r2.2)
termination_by (fuel, 2 + ids.length)
decreasing_by
all_goals first
  | (apply Prod.Lex.left; (try simp only [List.length_cons]); omega)
  | (apply Prod.Lex.right; (try simp only [List.length_cons]); omega)

/-- The `CompoundStmt` arm of `convert_stmt`: convert each (non-null)
child statement, concatenating the statement lists. -/
def Translation.convert_stmt_flat (t : Translation) (fuel : Nat)
    (ids : List NodeId) : Except String (List RStmt × Translation) :=
  match ids with
  | [] => Except.ok ([], t)
  | id :: rest => do
    let r ← Translation.convert_stmt t fuel id
    let r2 ← Translation.convert_stmt_flat r.2 fuel rest
    Except.ok (r.1 ++ r2.1, r2.2)
termination_by (fuel, 1 + ids.length)
decreasing_by
all_goals first
  | (apply Prod.Lex.left; (try simp only [List.length_cons]); omega)
  | (apply Prod.Lex.right; (try simp only [List.length_cons]); omega)

/-- The function-body loop: convert each child statement (`.unwrap()` on
a null child id), concatenating the statement lists. -/
def Translation.convert_stmts_unwrap (t : Translation) (fuel : Nat)
    (ids : List (Option NodeId)) : Except String (List RStmt × Translation) :=
  match ids with
  | [] => Except.ok ([], t)
  | c :: rest => do
    let id ← ounwrap c
    let r ← Translation.convert_stmt t fuel id
    let r2 ← Translation.convert_stmts_unwrap r.2 fuel rest
    Except.ok (r.1 ++ r2.1, r2.2)
termination_by (fuel, 1 + ids.length)
decreasing_by
all_goals first
  | (apply Prod.Lex.left; (try simp only [List.length_cons]); omega)
  | (apply Prod.Lex.right; (try simp only [List.length_cons]); omega)

/-- `convert_expr`: look up the node (dangling id is fatal) and convert
it. -/
def Translation.convert_expr (t : Translation) (fuel : Nat) (expr_id : NodeId) :
    Except String (WithStmts RExpr × Translation) :=
  match fuel with
  | 0 => Except.error "out of fuel"
  | fuel + 1 => do
    let node ← oexpect (t.ast_context.ast_nodes.lookup expr_id) "Expected expression node"
    Translation.convert_expr_node t fuel node
termination_by (fuel, 0)
decreasing_by
all_goals first
  | (apply Prod.Lex.left; (try simp only [List.length_cons]); omega)
  | (apply Prod.Lex.right; (try simp only [List.length_cons]); omega)

/-- `convert_expr_node`: dispatch on the tag of an expression node; the
default arm is the unimplemented-expression fatal failure. -/
def Translation.convert_expr_node (t : Translation) (fuel : Nat) (node : AstNode) :
    Except String (WithStmts RExpr × Translation) :=
  match fuel with
  | 0 => Except.error "out of fuel"
  | fuel + 1 => do
    match node.tag with
    | ASTEntryTag.TagDeclRefExpr => do
      let c0 ← lidx node.children 0
      let decl_id ← oexpect c0 "Expected decl id"
      let child ← oexpect (t.ast_context.ast_nodes.lookup decl_id) "Expected decl node"
      let varname ← oexpect child.get_decl_name "expected variable name"
      let rustname ← oexpect (t.renamer.get varname) "name not declared"
      Except.ok (WithStmts.new (RExpr.path_expr [rustname]), t)
    | ASTEntryTag.TagIntegerLiteral => do
      let e0 ← lidx node.extras 0
      let val ← oexpect (expect_u64 e0) "Expected value"
      let tid ← oexpect node.type_id "Expected type"
      let _ty := Translation.convert_type t tid
      Except.ok (WithStmts.new (RExpr.lit_int val), t)
    | ASTEntryTag.TagCharacterLiteral => do
      let e0 ← lidx node.extras 0
      let val ← oexpect (expect_u64 e0) "Expected value"
      let tid ← oexpect node.type_id "Expected type"
      let _ty := Translation.convert_type t tid
      Except.ok (WithStmts.new (RExpr.lit_int val), t)
    | ASTEntryTag.TagFloatingLiteral => do
      let e0 ← lidx node.extras 0
      let val ← oexpect (expect_f64 e0) "Expected value"
      Except.ok (WithStmts.new (RExpr.lit_float val), t)
    | ASTEntryTag.TagImplicitCastExpr => do
      let c0 ← lidx node.children 0
      let child ← oexpect c0 "Expected subvalue"
      Translation.convert_expr t fuel child
    | ASTEntryTag.TagUnaryOperator => do
      let e0 ← lidx node.extras 0
      let name ← oexpect (expect_string e0) "Missing binary operator name"
      let c0 ← lidx node.children 0
      let arg_id ← oexpect c0 "Missing value"
      let ra ← Translation.convert_expr t fuel arg_id
      let arg := ra.1
      let tid ← ounwrap node.type_id
      let cty ← ounwrap ((ra.2).ast_context.get_type tid)
      let ty := Translation.convert_type ra.2 tid
      let ru ← Translation.convert_unary_operator ra.2 name cty ty arg.val
      Except.ok ({ stmts := arg.stmts ++ (ru.1).stmts, val := (ru.1).val }, ru.2)
    | ASTEntryTag.TagBinaryOperator => do
      let e0 ← lidx node.extras 0
      let name ← oexpect (expect_string e0) "Missing binary operator name"
      let c0 ← lidx node.children 0
      let lhs_id ← oexpect c0 "lhs id"
      let lhs_node ← oexpect (t.ast_context.ast_nodes.lookup lhs_id) "lhs node"
      let ltid ← oexpect lhs_node.type_id "lhs ty id"
      let lhs_ty ← oexpect (t.ast_context.get_type ltid) "lhs ty"
      let rl ← Translation.convert_expr_node t fuel lhs_node
      let lhs := rl.1
      let c1 ← lidx node.children 1
      let rhs_id ← oexpect c1 "rhs id"
      let rhs_node ← oexpect ((rl.2).ast_context.ast_nodes.lookup rhs_id) "rhs node"
      let rtid ← oexpect rhs_node.type_id "rhs ty id"
      let rhs_ty ← oexpect ((rl.2).ast_context.get_type rtid) "rhs ty"
      let rr ← Translation.convert_expr_node rl.2 fuel rhs_node
      let rhs := rr.1
      let tid ← ounwrap node.type_id
      let cty ← ounwrap ((rr.2).ast_context.get_type tid)
      let ty := Translation.convert_type rr.2 tid
      let rb ← Translation.convert_binary_operator rr.2 name ty cty lhs_ty rhs_ty lhs.val rhs.val
      Except.ok
        ({ stmts := lhs.stmts ++ rhs.stmts ++ (rb.1).stmts, val := (rb.1).val }, rb.2)
    | ASTEntryTag.TagCallExpr => do
      let r ← Translation.convert_expr_list t fuel node.children
      match r.1.2 with
      | [] => Except.error "removal index (is 0) should be < len (is 0)"
      | fn :: args =>
        Except.ok ({ stmts := r.1.1, val := RExpr.call_expr fn args }, r.2)
    | ASTEntryTag.TagMemberExpr => do
      let c0 ← lidx node.children 0
      let sv_id ← oexpect c0 "Missing structval"
      let rs ← Translation.convert_expr t fuel sv_id
      let c1 ← lidx node.children 1
      let f_id ← oexpect c1 "Missing structfield id"
      let field_node ← oexpect ((rs.2).ast_context.ast_nodes.lookup f_id) "Missing structfield"
      let e0 ← lidx field_node.extras 0
      let field_name ← oexpect (expect_str e0) "expected field name"
      Except.ok ({ stmts := (rs.1).stmts, val := RExpr.field_expr (rs.1).val field_name }, rs.2)
    | _ => Except.error "Expression not implemented"
termination_by (fuel, 1)
decreasing_by
all_goals first
  | (apply Prod.Lex.left; (try simp only [List.length_cons]); omega)
  | (apply Prod.Lex.right; (try simp only [List.length_cons]); omega)

/-- The `CallExpr` loop: convert each child (`.unwrap()` on a null id),
accumulating statement prefixes and values in order. -/
def Translation.convert_expr_list (t : Translation) (fuel : Nat)
    (ids : List (Option NodeId)) :
    Except String ((List RStmt × List RExpr) × Translation) :=
  match ids with
  | [] => Except.ok (([], []), t)
  | c :: rest => do
    let id ← ounwrap c
    let r ← Translation.convert_expr t fuel id
    let r2 ← Translation.convert_expr_list r.2 fuel rest
    Except.ok (((r.1).stmts ++ r2.1.1, (r.1).val :: r2.1.2), r2.2)
termination_by (fuel, 1 + ids.length)
decreasing_by
all_goals first
  | (apply Prod.Lex.left; (try simp only [List.length_cons]); omega)
  | (apply Prod.Lex.right; (try simp only [List.length_cons]); omega)

/-- `convert_function_body`: the body node must be a `CompoundStmt`
(assertion); open a scope, convert the children, close the scope, and
wrap in a block. -/
def Translation.convert_function_body (t : Translation) (fuel : Nat) (body_id : NodeId) :
    Except String (RBlock × Translation) :=
  match fuel with
  | 0 => Except.error "out of fuel"
  | fuel + 1 => do
    let node ← oexpect (t.ast_context.ast_nodes.lookup body_id) "Expected function body node"
    if node.tag = ASTEntryTag.TagCompoundStmt then do
      let t1 := { t with renamer := t.renamer.add_scope }
      let r ← Translation.convert_stmts_unwrap t1 fuel node.children
      let t3 := { r.2 with renamer := (r.2).renamer.drop_scope }
      Except.ok (stmts_block r.1, t3)
    else
      Except.error "assertion failed: node.tag == ASTEntryTag::TagCompoundStmt"
termination_by (fuel, 0)
decreasing_by
all_goals first
  | (apply Prod.Lex.left; (try simp only [List.length_cons]); omega)
  | (apply Prod.Lex.right; (try simp only [List.length_cons]); omega)
end

/-- `add_struct`: convert each field type and emit a struct item; field
order matches declaration order. -/
def Translation.add_struct (t : Translation) (name : String)
    (fields : List (String × NodeId)) : Translation :=
  let struct_fields := fields.map (fun p => (p.1, TypeConverter.convert t.ast_context p.2))
  { t with items := t.items ++ [Item.struct_item name struct_fields] }

/-- `add_typedef`: convert the type and emit a type-alias item. -/
def Translation.add_typedef (t : Translation) (name : String) (typeid : NodeId) :
    Translation :=
  let ty := Translation.convert_type t typeid
  { t with items := t.items ++ [Item.type_item name ty] }

/-- The parameter loop of `add_function`: insert each parameter name
(failure to insert is fatal) and convert its type. -/
def Translation.convert_args (t : Translation) :
    List (String × NodeId) → Except String (List (RTy × RPat) × Translation)
  | [] => Except.ok ([], t)
  | (var, ty) :: rest => do
    let ins := t.renamer.insert var var
    let rust_var ← oexpect ins.1 "Failed to insert argument"
    let t1 := { t with renamer := ins.2 }
    let r ← Translation.convert_args t1 rest
    Except.ok ((Translation.convert_type t ty, RPat.ident_pat Mutability.Immutable rust_var)
      :: r.1, r.2)

/-- `add_function`: open a parameter scope, convert the arguments and the
return type, lower the body, close the scope, and append a function
item. -/
def Translation.add_function (t : Translation) (fuel : Nat) (name : String)
    (arguments : List (String × NodeId)) (return_type : NodeId) (body : NodeId) :
    Except String Translation := do
  let t1 := { t with renamer := t.renamer.add_scope }
  let ra ← Translation.convert_args t1 arguments
  let args := ra.1
  let ret := Translation.convert_type ra.2 return_type
  let rb ← Translation.convert_function_body ra.2 fuel body
  let t3 := { rb.2 with renamer := (rb.2).renamer.drop_scope }
  Except.ok { t3 with items := t3.items ++ [Item.fn_item name args ret rb.1] }

/-- The driver's parameter-extraction loop: for each child id of a
function declaration (except the last), look up the parameter node and
read its name and type id. -/
def get_args (ctx : AstContext) :
    List (Option NodeId) → Except String (List (String × NodeId))
  | [] => Except.ok []
  | c :: rest => do
    let cid ← oexpect c "Missing parameter id"
    let p ← oexpect (ctx.ast_nodes.lookup cid) "Bad parameter id"
    let e0 ← lidx p.extras 0
    let param_name ← oexpect (expect_string e0) "Parameter name required"
    let tid ← oexpect p.type_id "Parameter type required"
    let r ← get_args ctx rest
    Except.ok ((param_name, tid) :: r)

/-- The driver's first loop: populate the renamer with top-level names;
a dangling id or a nameless node is silently skipped. -/
def populate_renamer_loop (ctx : AstContext) :
    List NodeId → Translation → Translation
  | [], t => t
  | top_id :: rest, t =>
    let t1 :=
      match ctx.ast_nodes.lookup top_id with
      | some x =>
        match x.get_decl_name with
        | some y =>
          let ins := t.renamer.insert y y
          { t with renamer := ins.2 }
        | none => t
      | none => t
    populate_renamer_loop ctx rest t1

/-- The driver's second loop: a dangling top-level id is skipped
(`continue`); a `FunctionDecl` is translated via `add_function`; every
other tag falls through without emitting anything. -/
def translate_tops (ctx : AstContext) (fuel : Nat) :
    List NodeId → Translation → Except String Translation
  | [], t => Except.ok t
  | top_id :: rest, t =>
    match ctx.ast_nodes.lookup top_id with
    | none => translate_tops ctx fuel rest t
    | some x =>
      if x.tag = ASTEntryTag.TagFunctionDecl then do
        let e0 ← lidx x.extras 0
        let name ← oexpect (expect_string e0) "Expected a name"
        let tid ← oexpect x.type_id "Expected a type"
        let ty ← oexpect (ctx.get_type tid) "Expected a number"
        let te0 ← lidx ty.extras 0
        let funtys ← oexpect (expect_array te0) "Function declaration type expected"
        let f0 ← lidx funtys 0
        let ret ← oexpect (expect_u64 f0) "Expected a return type"
        let args_n := x.children.length - 1
        let args ← get_args ctx (x.children.take args_n)
        let body_opt ← lidx x.children args_n
        let body ← oexpect body_opt "Expected body id"
        let t1 ← Translation.add_function t fuel name args ret body
        translate_tops ctx fuel rest t1
      else
        translate_tops ctx fuel rest t

/-- `translate`: build a fresh translation state, populate the renamer
with top-level names, translate the top-level declarations, and hand
the accumulated items to the downstream pretty-printer (which is an
external collaborator; its output string is out of scope, so the item
list itself is returned). -/
def AstImporter.translate (ast_context : AstContext) (fuel : Nat) :
    Except String (List Item) := do
  let t := Translation.new ast_context
  let t1 := populate_renamer_loop ast_context ast_context.top_nodes t
  let t2 ← translate_tops ast_context fuel ast_context.top_nodes t1
  Except.ok t2.items

/-! Fixtures and helper lemmas for the statement-level and driver claims. -/

/-- An integer-literal expression node (value 0, type id 10). -/
def intLitNode : AstNode :=
  { tag := ASTEntryTag.TagIntegerLiteral, children := [], type_id := some 10,
    extras := [LitVal.vu64 0] }

/-- A null statement node. -/
def nullStmtNode : AstNode :=
  { tag := ASTEntryTag.TagNullStmt, children := [], type_id := none, extras := [] }

/-- A context holding one integer literal (id 1) and one null statement
(id 2). -/
def ctxWhile : AstContext :=
  { top_nodes := [], ast_nodes := [(1, intLitNode), (2, nullStmtNode)],
    types := [(10, signedTy)] }

/-- A context whose only top-level id (5) has no entry in the node
store. -/
def ctxDangling : AstContext :=
  { top_nodes := [5], ast_nodes := [], types := [] }

/-- A typedef declaration node. -/
def typedefNode : AstNode :=
  { tag := ASTEntryTag.TagTypedefDecl, children := [], type_id := some 7,
    extras := [LitVal.vstr "T"] }

/-- A context whose only top-level declaration is a typedef. -/
def ctxTypedef : AstContext :=
  { top_nodes := [1], ast_nodes := [(1, typedefNode)], types := [] }

/-- The renamer-population loop never touches the accumulated items. -/
theorem populate_renamer_loop_items (ctx : AstContext) (tops : List NodeId)
    (t : Translation) : (populate_renamer_loop ctx tops t).items = t.items := by
  induction tops generalizing t with
  | nil => rfl
  | cons top_id rest ih =>
    simp only [populate_renamer_loop]
    cases h : ctx.ast_nodes.lookup top_id with
    | none => simp [h, ih]
    | some x =>
      cases hy : x.get_decl_name with
      | none => simp [h, hy, ih]
      | some y => simp [h, hy, ih]

/-- The driver loop leaves the state untouched when no top-level id
resolves to a `FunctionDecl` node. -/
theorem translate_tops_skips (ctx : AstContext) (fuel : Nat) (tops : List NodeId)
    (t : Translation)
    (h : ∀ id node, id ∈ tops → ctx.ast_nodes.lookup id = some node →
      ¬ node.tag = ASTEntryTag.TagFunctionDecl) :
    translate_tops ctx fuel tops t = Except.ok t := by
  induction tops generalizing t with
  | nil => rfl
  | cons top_id rest ih =>
    have hrest : ∀ id node, id ∈ rest → ctx.ast_nodes.lookup id = some node →
        ¬ node.tag = ASTEntryTag.TagFunctionDecl :=
      fun id node hm => h id node (List.mem_cons_of_mem _ hm)
    simp only [translate_tops]
    cases hl : ctx.ast_nodes.lookup top_id with
    | none => exact ih t hrest
    | some x =>
      have hx := h top_id x (List.mem_cons_self _ _) hl
      simp only [hx, ite_false]
      exact ih t hrest

/-- C5: lowering a `WhileStmt` yields exactly one target statement
`while cond_expr { body }` where `cond_expr` is the condition's
`WithStmts` collapsed to a single expression; and whenever the
condition's prefix is non-empty, that collapse is a block expression
containing the prefix followed by the condition value (so the prefix
re-executes on every iteration). -/
theorem while_lowering_single_statement :
    (∀ (t : Translation) (fuel : Nat) (cond_id body_id : NodeId)
       (cond : WithStmts RExpr) (t1 : Translation) (body : List RStmt) (t2 : Translation),
       Translation.convert_expr t fuel cond_id = Except.ok (cond, t1) →
       Translation.convert_stmt t1 fuel body_id = Except.ok (body, t2) →
       Translation.convert_while_stmt t fuel cond_id body_id =
         Except.ok
           ([RStmt.expr_stmt (RExpr.while_expr cond.to_expr (stmts_block body))], t2))
    ∧ (∀ (w : WithStmts RExpr), w.stmts ≠ [] →
       w.to_expr = RExpr.block_expr (RBlock.mk (w.stmts ++ [RStmt.expr_stmt w.val]))) := by
  constructor
  · intro t fuel cond_id body_id cond t1 body t2 hc hb
    simp [Translation.convert_while_stmt, hc, hb, bind, Except.bind, pure, Except.pure]
  · intro w hw
    cases hs : w.stmts with
    | nil => exact absurd hs hw
    | cons a as => simp [WithStmts.to_expr, hs]

/-- C5 witness: a while statement over a prefix-free condition produces
the single `while` statement, and a `WithStmts` with a non-empty
prefix collapses to a block of the prefix followed by the value. -/
theorem while_lowering_single_statement_witness :
    Translation.convert_while_stmt (Translation.new ctxWhile) 2 1 2 =
      Except.ok
        ([RStmt.expr_stmt (RExpr.while_expr (RExpr.lit_int 0) (RBlock.mk []))],
         Translation.new ctxWhile)
    ∧ WithStmts.to_expr
        { stmts := [RStmt.expr_stmt (RExpr.lit_int 1)], val := RExpr.lit_int 0 } =
      RExpr.block_expr
        (RBlock.mk [RStmt.expr_stmt (RExpr.lit_int 1), RStmt.expr_stmt (RExpr.lit_int 0)]) := by
  constructor
  · exact while_lowering_single_statement.1 (Translation.new ctxWhile) 2 1 2
      { stmts := [], val := RExpr.lit_int 0 } (Translation.new ctxWhile) []
      (Translation.new ctxWhile)
      (by simp [Translation.convert_expr, Translation.convert_expr_node, ctxWhile,
            intLitNode, oexpect, lidx, ounwrap, List.lookup, bind, Except.bind, pure,
            Except.pure, expect_u64, Translation.convert_type, TypeConverter.convert,
            WithStmts.new])
      (by simp [Translation.convert_stmt, ctxWhile, nullStmtNode, oexpect, lidx,
            ounwrap, List.lookup, bind, Except.bind, pure, Except.pure])
  · exact while_lowering_single_statement.2
      { stmts := [RStmt.expr_stmt (RExpr.lit_int 1)], val := RExpr.lit_int 0 }
      (by simp)

/-- C7 counterexample: the driver loop does NOT abort on a dangling
top-level declaration id — it silently skips it (`continue`) and the
translation completes with no items, contradicting the claim that
every dangling-id lookup is fatal. -/
theorem translate_survives_dangling_top_id :
    AstImporter.translate ctxDangling 1 = Except.ok [] := rfl

/-- C7 (amended): node-id lookups performed while lowering statements and
expressions are fatal when the id is dangling, and a translation whose
lowering is reached through such an id aborts; the driver loop,
however, silently skips a dangling top-level declaration id, so a
translation whose top-level ids are all dangling completes with no
items. -/
theorem dangling_id_handling :
    (∀ (t : Translation) (fuel : Nat) (stmt_id : NodeId),
       t.ast_context.ast_nodes.lookup stmt_id = none →
       Translation.convert_stmt t (fuel + 1) stmt_id =
         Except.error "called Option::unwrap on a None value")
    ∧ (∀ (t : Translation) (fuel : Nat) (expr_id : NodeId),
       t.ast_context.ast_nodes.lookup expr_id = none →
       Translation.convert_expr t (fuel + 1) expr_id =
         Except.error "Expected expression node")
    ∧ (∀ (ctx : AstContext) (fuel : Nat),
       (∀ id, id ∈ ctx.top_nodes → ctx.ast_nodes.lookup id = none) →
       AstImporter.translate ctx fuel = Except.ok []) := by
  refine ⟨?_, ?_, ?_⟩
  · intro t fuel stmt_id h
    simp [Translation.convert_stmt, h, ounwrap, oexpect, bind, Except.bind]
  · intro t fuel expr_id h
    simp [Translation.convert_expr, h, oexpect, bind, Except.bind]
  · intro ctx fuel h
    have hall : ∀ id node, id ∈ ctx.top_nodes → ctx.ast_nodes.lookup id = some node →
        ¬ node.tag = ASTEntryTag.TagFunctionDecl := by
      intro id node hm hl
      rw [h id hm] at hl
      exact absurd hl (by simp)
    simp only [AstImporter.translate]
    rw [translate_tops_skips ctx fuel _ _ hall]
    simp [populate_renamer_loop_items, Translation.new, bind, Except.bind, pure,
      Except.pure]

/-- C7 witness: a dangling statement id and a dangling expression id are
fatal inside lowering, while a translation whose only top-level id is
dangling completes with no items. -/
theorem dangling_id_handling_witness :
    Translation.convert_stmt (Translation.new ctx0) 1 99 =
      Except.error "called Option::unwrap on a None value"
    ∧ Translation.convert_expr (Translation.new ctx0) 1 99 =
      Except.error "Expected expression node"
    ∧ AstImporter.translate ctxDangling 2 = Except.ok [] :=
  ⟨dangling_id_handling.1 (Translation.new ctx0) 0 99 rfl,
   dangling_id_handling.2.1 (Translation.new ctx0) 0 99 rfl,
   dangling_id_handling.2.2 ctxDangling 2
     (by intro id hm
         simp [ctxDangling] at hm
         subst hm
         rfl)⟩

/-- C10: the driver emits items only for top-level `FunctionDecl`
declarations — a translation unit whose top-level declarations all
have any other tag (typedefs, records, variables, …) produces no items
and no error; `add_typedef` and `add_struct` exist but the driver
never invokes them. -/
theorem driver_emits_only_function_decls (ctx : AstContext) (fuel : Nat)
    (h : ∀ id node, id ∈ ctx.top_nodes → ctx.ast_nodes.lookup id = some node →
      ¬ node.tag = ASTEntryTag.TagFunctionDecl) :
    AstImporter.translate ctx fuel = Except.ok [] := by
  simp only [AstImporter.translate]
  rw [translate_tops_skips ctx fuel _ _ h]
  simp [populate_renamer_loop_items, Translation.new, bind, Except.bind, pure,
    Except.pure]

/-- C10 witness: a translation unit whose only top-level declaration is a
typedef yields no items (and no error). -/
theorem driver_emits_only_function_decls_witness :
    AstImporter.translate ctxTypedef 1 = Except.ok [] :=
  driver_emits_only_function_decls ctxTypedef 1
    (by intro id node hm hl
        simp [ctxTypedef] at hm
        subst hm
        simp [ctxTypedef, List.lookup] at hl
        subst hl
        simp [typedefNode])
